import Mathlib

set_option maxRecDepth 4000

/-!
Verification of the listing-to-district aggregation pipeline of the
mapa-cen-mieszkan repository.

The statistics scripts operate on JavaScript numbers; the embedding models
that arithmetic over the rationals, so every interpolation and rounding step
is exact.  Machine times (scraped_at, snapshot dates, CURRENT_DATE) are
modelled as integer day counts.  Database rows are modelled as Lean
structures, nullable columns as Option, and per-group SQL views as pure
functions over the list of rows belonging to one (city, district,
offer_type) group.
-/

namespace MapaCen

/--
Embeds calculatePercentile from the aggregation script
(src/unnamed/part_016, lines 35-43):
index = percentile / 100 * (length - 1); lower = floor; upper = ceil;
weight = index - lower; clamp to the last element when upper runs past the
end, otherwise interpolate linearly between arr[lower] and arr[upper].
-/
def calculatePercentile (sortedArr : List ℚ) (percentile : ℚ) : ℚ :=
  let index : ℚ := percentile / 100 * ((sortedArr.length : ℚ) - 1)
  let lower : ℤ := ⌊index⌋
  let upper : ℤ := ⌈index⌉
  let weight : ℚ := index - (lower : ℚ)
  if (sortedArr.length : ℤ) ≤ upper then sortedArr.getD (sortedArr.length - 1) 0
  else sortedArr.getD lower.toNat 0 * (1 - weight) + sortedArr.getD upper.toNat 0 * weight

/-- The interpolation part of the percentile algorithm, as the claim words it:
arr[lower] * (1 - weight) + arr[upper] * weight at index = P / 100 * (n - 1). -/
def percentileInterp (arr : List ℚ) (P : ℚ) : ℚ :=
  let index : ℚ := P / 100 * ((arr.length : ℚ) - 1)
  arr.getD (⌊index⌋).toNat 0 * (1 - (index - (⌊index⌋ : ℚ)))
    + arr.getD (⌈index⌉).toNat 0 * (index - (⌊index⌋ : ℚ))

lemma calculatePercentile_eq_interp (arr : List ℚ) (P : ℚ)
    (hne : arr ≠ []) (h0 : 0 ≤ P) (h100 : P ≤ 100) :
    calculatePercentile arr P = percentileInterp arr P := by
  have hlen : 1 ≤ arr.length := List.length_pos.mpr hne
  have hnn : (0 : ℚ) ≤ (arr.length : ℚ) - 1 := by
    have h1 : (1 : ℚ) ≤ (arr.length : ℚ) := by exact_mod_cast hlen
    linarith
  have hP1 : P / 100 ≤ 1 := (div_le_one (by norm_num : (0:ℚ) < 100)).mpr h100
  have hidx_le : P / 100 * ((arr.length : ℚ) - 1) ≤ (arr.length : ℚ) - 1 :=
    mul_le_of_le_one_left hnn hP1
  have hceil : ⌈P / 100 * ((arr.length : ℚ) - 1)⌉ ≤ (arr.length : ℤ) - 1 := by
    rw [Int.ceil_le]
    push_cast
    exact hidx_le
  have hcond : ¬ ((arr.length : ℤ) ≤ ⌈P / 100 * ((arr.length : ℚ) - 1)⌉) := by omega
  simp only [calculatePercentile, percentileInterp]
  rw [if_neg hcond]

lemma calculatePercentile_five_p50 :
    calculatePercentile [10, 20, 30, 40, 50] 50 = 30 := by
  have hf : ⌊(50:ℚ) / 100 * (((([10,20,30,40,50]:List ℚ).length):ℚ) - 1)⌋ = 2 := by
    rw [Int.floor_eq_iff] <;> norm_num
  have hc : ⌈(50:ℚ) / 100 * (((([10,20,30,40,50]:List ℚ).length):ℚ) - 1)⌉ = 2 := by
    rw [Int.ceil_eq_iff] <;> norm_num
  have e2 : ([10,20,30,40,50]:List ℚ).getD (Int.toNat 2) 0 = 30 := rfl
  simp only [calculatePercentile, hf, hc, e2]
  norm_num

lemma calculatePercentile_five_p10 :
    calculatePercentile [10, 20, 30, 40, 50] 10 = 14 := by
  have hf : ⌊(10:ℚ) / 100 * (((([10,20,30,40,50]:List ℚ).length):ℚ) - 1)⌋ = 0 := by
    rw [Int.floor_eq_iff] <;> norm_num
  have hc : ⌈(10:ℚ) / 100 * (((([10,20,30,40,50]:List ℚ).length):ℚ) - 1)⌉ = 1 := by
    rw [Int.ceil_eq_iff] <;> norm_num
  have e0 : ([10,20,30,40,50]:List ℚ).getD (Int.toNat 0) 0 = 10 := rfl
  have e1 : ([10,20,30,40,50]:List ℚ).getD (Int.toNat 1) 0 = 20 := rfl
  simp only [calculatePercentile, hf, hc, e0, e1]
  norm_num

lemma calculatePercentile_five_p90 :
    calculatePercentile [10, 20, 30, 40, 50] 90 = 46 := by
  have hf : ⌊(90:ℚ) / 100 * (((([10,20,30,40,50]:List ℚ).length):ℚ) - 1)⌋ = 3 := by
    rw [Int.floor_eq_iff] <;> norm_num
  have hc : ⌈(90:ℚ) / 100 * (((([10,20,30,40,50]:List ℚ).length):ℚ) - 1)⌉ = 4 := by
    rw [Int.ceil_eq_iff] <;> norm_num
  have e3 : ([10,20,30,40,50]:List ℚ).getD (Int.toNat 3) 0 = 40 := rfl
  have e4 : ([10,20,30,40,50]:List ℚ).getD (Int.toNat 4) 0 = 50 := rfl
  simp only [calculatePercentile, hf, hc, e3, e4]
  norm_num

lemma calculatePercentile_one (x P : ℚ) : calculatePercentile [x] P = x := by
  have h1 : ((([x]:List ℚ).length):ℚ) - 1 = 0 := by norm_num
  simp only [calculatePercentile, h1, mul_zero, Int.floor_zero, Int.ceil_zero,
    Int.toNat_zero, List.getD_cons_zero]
  norm_num

/-- C1: the Aggregator percentile function computes the linear interpolation
arr[floor(index)] * (1 - weight) + arr[ceil(index)] * weight at
index = P / 100 * (n - 1) for every sorted non-empty array and every
P in [0, 100] (so the clamp to arr[n - 1] never fires on that domain);
in particular on [10, 20, 30, 40, 50] it yields p50 = 30, p10 = 14 and
p90 = 46, and on the single-element array [42] every percentile equals 42. -/
theorem percentile_interpolation_correct :
    (∀ (arr : List ℚ) (P : ℚ), arr ≠ [] → List.Sorted (· ≤ ·) arr →
        0 ≤ P → P ≤ 100 → calculatePercentile arr P = percentileInterp arr P)
    ∧ calculatePercentile [10, 20, 30, 40, 50] 50 = 30
    ∧ calculatePercentile [10, 20, 30, 40, 50] 10 = 14
    ∧ calculatePercentile [10, 20, 30, 40, 50] 90 = 46
    ∧ (∀ P : ℚ, calculatePercentile [42] P = 42) :=
  ⟨fun arr P hne _ h0 h100 => calculatePercentile_eq_interp arr P hne h0 h100,
    calculatePercentile_five_p50, calculatePercentile_five_p10,
    calculatePercentile_five_p90, fun P => calculatePercentile_one 42 P⟩

/-- Witness for C1: the general interpolation statement applied to the
concrete sorted array [10, 20, 30, 40, 50] at P = 90. -/
theorem percentile_interpolation_correct_witness :
    calculatePercentile [10, 20, 30, 40, 50] 90 = percentileInterp [10, 20, 30, 40, 50] 90 :=
  percentile_interpolation_correct.1 [10, 20, 30, 40, 50] 90 (by decide)
    (by decide) (by norm_num) (by norm_num)

/--
Embeds calculateStdDev (src/unnamed/part_016, lines 45-50).  Math.sqrt is a
function on machine floats with no exact rational counterpart, so the
embedding abstracts it as a parameter sqrtFn; every theorem about the
aggregator quantifies over sqrtFn, so nothing proved depends on its values.
-/
def calculateStdDev (sqrtFn : ℚ → ℚ) (arr : List ℚ) (mean : ℚ) : ℚ :=
  if arr.length < 2 then 0
  else sqrtFn (((arr.map fun v => (v - mean) ^ 2).sum) / (arr.length : ℚ))

/-- The four room-histogram buckets of a district snapshot. -/
structure RoomCounts where
  c1 : ℕ
  c2 : ℕ
  c3 : ℕ
  c4p : ℕ
deriving DecidableEq

/-- One step of the room-distribution if chain of aggregateDistrict
(src/unnamed/part_016, lines 114-120).  rooms === 1 / 2 / 3 feed the first
three buckets; otherwise `rooms && rooms >= 4` (a null or zero rooms value is
falsy in JavaScript) feeds the 4+ bucket; anything else is left uncounted. -/
def roomStep (acc : RoomCounts) (rooms : Option ℤ) : RoomCounts :=
  if rooms = some 1 then { acc with c1 := acc.c1 + 1 }
  else if rooms = some 2 then { acc with c2 := acc.c2 + 1 }
  else if rooms = some 3 then { acc with c3 := acc.c3 + 1 }
  else
    match rooms with
    | some n => if n ≠ 0 ∧ 4 ≤ n then { acc with c4p := acc.c4p + 1 } else acc
    | none => acc

/-- Embeds the room-distribution loop of aggregateDistrict
(src/unnamed/part_016, lines 113-120). -/
def roomCounts (rooms : List (Option ℤ)) : RoomCounts :=
  rooms.foldl roomStep ⟨0, 0, 0, 0⟩

lemma roomCounts_foldl (rooms : List (Option ℤ)) : ∀ acc : RoomCounts,
    rooms.foldl roomStep acc =
      ⟨acc.c1 + rooms.countP (fun r => r = some 1),
       acc.c2 + rooms.countP (fun r => r = some 2),
       acc.c3 + rooms.countP (fun r => r = some 3),
       acc.c4p + rooms.countP (fun r =>
         match r with | some n => decide (4 ≤ n) | none => false)⟩ := by
  induction rooms with
  | nil => intro acc; simp
  | cons r rest ih =>
    intro acc
    rw [List.foldl_cons, ih]
    rcases r with _ | n
    · simp [roomStep, List.countP_cons]
    · simp only [roomStep, List.countP_cons]
      split_ifs with h1 h2 h3 h4 <;>
        simp_all [RoomCounts.mk.injEq] <;> omega

/-- C8: the room histogram counts a listing in bucket 1, 2 or 3 exactly when
rooms equals 1, 2 or 3, in bucket 4+ exactly when rooms is at least 4, and
listings with null rooms in no bucket; on rooms [1,2,2,3,4,5,null] it
produces counts 1, 2, 1, 2, bucketing 6 of the 7 listings. -/
theorem room_histogram_buckets :
    (∀ rooms : List (Option ℤ),
      (roomCounts rooms).c1 = rooms.countP (fun r => r = some 1)
      ∧ (roomCounts rooms).c2 = rooms.countP (fun r => r = some 2)
      ∧ (roomCounts rooms).c3 = rooms.countP (fun r => r = some 3)
      ∧ (roomCounts rooms).c4p = rooms.countP (fun r =>
          match r with | some n => decide (4 ≤ n) | none => false))
    ∧ (∀ rooms : List (Option ℤ), roomCounts (none :: rooms) = roomCounts rooms)
    ∧ roomCounts [some 1, some 2, some 2, some 3, some 4, some 5, none] = ⟨1, 2, 1, 2⟩
    ∧ 1 + 2 + 1 + 2 = 6
    ∧ [some 1, some 2, some 2, some 3, some 4, some 5, (none : Option ℤ)].length = 7 := by
  refine ⟨fun rooms => ?_, fun rooms => rfl, by decide, rfl, rfl⟩
  have h := roomCounts_foldl rooms ⟨0, 0, 0, 0⟩
  rw [roomCounts, h]
  exact ⟨by simp, by simp, by simp, by simp⟩

/-- A row of the listings table as the aggregation script selects it
(src/unnamed/part_016, lines 3-11 and 62-69), together with the scraped_at
timestamp the query filters on, modelled as an integer day count.
price_per_m2 is a generated, non-null column of the schema
(src/unnamed/part_003, line 54: price / size_m2 with price > 0 and
size_m2 > 0 checked), so the script's defensive non-null filters on price,
price_per_m2 and size_m2 drop nothing and the fields are plain rationals. -/
structure DbListing where
  city : String
  district : String
  offer_type : String
  price : ℚ
  price_per_m2 : ℚ
  size_m2 : ℚ
  rooms : Option ℤ
  scraped_at : ℤ
deriving DecidableEq

/-- Insert into a list sorted ascending. -/
def insertQ (x : ℚ) : List ℚ → List ℚ
  | [] => [x]
  | y :: ys => if x ≤ y then x :: y :: ys else y :: insertQ x ys

/-- Ascending numeric sort, embedding the JavaScript sort with comparator
(a, b) => a - b applied to the price-per-m2 array
(src/unnamed/part_016, line 84). -/
def sortQ : List ℚ → List ℚ
  | [] => []
  | x :: xs => insertQ x (sortQ xs)

/-- Embeds the listings query of aggregateDistrict
(src/unnamed/part_016, lines 58-69): equality filters on city, district and
offer_type, and scraped_at at or after thirty days before the run time now
(new Date() minus 30 days); the date argument of aggregateDistrict never
enters this query. -/
def listingsForWindow (db : List DbListing) (city district offerType : String)
    (now : ℤ) : List DbListing :=
  db.filter (fun l => l.city == city && l.district == district
    && l.offer_type == offerType && decide (now - 30 ≤ l.scraped_at))

/-- The row aggregateDistrict builds for the district_stats table
(src/unnamed/part_016, lines 13-33 and 122-142). -/
structure StatsRow where
  city : String
  district : String
  offer_type : String
  date : ℤ
  avg_price : ℚ
  avg_price_m2 : ℚ
  median_price_m2 : ℚ
  min_price_m2 : ℚ
  max_price_m2 : ℚ
  p10_price_m2 : ℚ
  p90_price_m2 : ℚ
  stddev_price_m2 : ℚ
  listing_count : ℕ
  new_listings : ℕ
  avg_size_m2 : ℚ
  count_1room : ℕ
  count_2room : ℕ
  count_3room : ℕ
  count_4plus : ℕ
deriving DecidableEq

/-- Embeds the statistics block of aggregateDistrict
(src/unnamed/part_016, lines 80-142) on an already-fetched listing list.
Math.round on a JavaScript number is floor(x + 1/2), which is Mathlib round
on ℚ.  newListings is the result of the separate count query for listings
scraped on the current calendar day; the script substitutes 0 for a null
count (line 136). -/
def computeStats (sqrtFn : ℚ → ℚ) (city district offerType : String) (date : ℤ)
    (listings : List DbListing) (newListings : Option ℕ) : Option StatsRow :=
  let pricesPerM2 := sortQ (listings.map (·.price_per_m2))
  let totalPrices := listings.map (·.price)
  let sizes := listings.map (·.size_m2)
  if pricesPerM2.length = 0 then none
  else
    let avgPricePerM2 := pricesPerM2.sum / (pricesPerM2.length : ℚ)
    let avgTotalPrice :=
      if 0 < totalPrices.length then totalPrices.sum / (totalPrices.length : ℚ) else 0
    let medianPrice := calculatePercentile pricesPerM2 50
    let avgSize := if 0 < sizes.length then sizes.sum / (sizes.length : ℚ) else 0
    let rc := roomCounts (listings.map (·.rooms))
    some {
      city := city
      district := district
      offer_type := offerType
      date := date
      avg_price := (round avgTotalPrice : ℤ)
      avg_price_m2 := (round avgPricePerM2 : ℤ)
      median_price_m2 := (round medianPrice : ℤ)
      min_price_m2 := (round (pricesPerM2.getD 0 0) : ℤ)
      max_price_m2 := (round (pricesPerM2.getD (pricesPerM2.length - 1) 0) : ℤ)
      p10_price_m2 := (round (calculatePercentile pricesPerM2 10) : ℤ)
      p90_price_m2 := (round (calculatePercentile pricesPerM2 90) : ℤ)
      stddev_price_m2 := (round (calculateStdDev sqrtFn pricesPerM2 avgPricePerM2) : ℤ)
      listing_count := listings.length
      new_listings := newListings.getD 0
      avg_size_m2 := ((round (avgSize * 10) : ℤ) : ℚ) / 10
      count_1room := rc.c1
      count_2room := rc.c2
      count_3room := rc.c3
      count_4plus := rc.c4p }

/-- Embeds aggregateDistrict (src/unnamed/part_016, lines 52-143): fetch the
trailing window anchored at the run time now, return null when it is empty,
otherwise build the statistics row carrying the date argument unchanged. -/
def aggregateDistrict (sqrtFn : ℚ → ℚ) (db : List DbListing)
    (city district offerType : String) (date : ℤ) (now : ℤ)
    (newListings : Option ℕ) : Option StatsRow :=
  let listings := listingsForWindow db city district offerType now
  if listings.length = 0 then none
  else computeStats sqrtFn city district offerType date listings newListings

/-- Two stats rows hit the same upsert conflict target
(city, district, date, offer_type) of src/unnamed/part_016, line 174. -/
def sameStatsKey (a b : StatsRow) : Bool :=
  a.city == b.city && a.district == b.district && a.date == b.date
    && a.offer_type == b.offer_type

/-- Embeds the district_stats upsert with onConflict city,district,date,offer_type
(src/unnamed/part_016, lines 173-175): replace the row with the same key, or
append when none exists. -/
def upsertStats (store : List StatsRow) (s : StatsRow) : List StatsRow :=
  if store.any (fun t => sameStatsKey t s) then
    store.map (fun t => if sameStatsKey t s then s else t)
  else store ++ [s]

/-- Embeds one iteration of the main loop of the aggregation script
(src/unnamed/part_016, lines 168-192): upsert the snapshot when
aggregateDistrict returned one, leave the table untouched when it returned
null (the district is only counted as skipped). -/
def processDistrict (sqrtFn : ℚ → ℚ) (store : List StatsRow) (db : List DbListing)
    (city district offerType : String) (date : ℤ) (now : ℤ)
    (newListings : Option ℕ) : List StatsRow :=
  match aggregateDistrict sqrtFn db city district offerType date now newListings with
  | none => store
  | some s => upsertStats store s

/-- Follows the claim words for C3: the listings for the same keys whose
scraped_at lies within the 30 days preceding the asOfDate argument. -/
def windowPrecedingAsOf (db : List DbListing) (city district offerType : String)
    (asOf : ℤ) : List DbListing :=
  db.filter (fun l => l.city == city && l.district == district
    && l.offer_type == offerType
    && decide (asOf - 30 ≤ l.scraped_at) && decide (l.scraped_at ≤ asOf))

/-- A concrete listing row: scraped on day 990, in the Mokotow district of
Warsaw, 50 m2 at 800000 total, 16000 per m2, two rooms. -/
def dbL0 : DbListing :=
  { city := "warszawa", district := "mokotow", offer_type := "sale",
    price := 800000, price_per_m2 := 16000, size_m2 := 50,
    rooms := some 2, scraped_at := 990 }

/-- Counterexample to C3: with run time now = 1000 and asOfDate = 0, the
listing scraped on day 990 is selected by aggregateDistrict although the 30
days preceding asOfDate contain no listing at all, and aggregateDistrict
returns a snapshot where the claim demands null. -/
theorem aggregation_window_asof_counterexample :
    listingsForWindow [dbL0] "warszawa" "mokotow" "sale" 1000 = [dbL0]
    ∧ windowPrecedingAsOf [dbL0] "warszawa" "mokotow" "sale" 0 = []
    ∧ aggregateDistrict (fun q => q) [dbL0] "warszawa" "mokotow" "sale" 0 1000 none ≠ none := by
  refine ⟨by decide, by decide, ?_⟩
  have hw : listingsForWindow [dbL0] "warszawa" "mokotow" "sale" 1000 = [dbL0] := by decide
  rw [aggregateDistrict, hw]
  simp [computeStats, sortQ, insertQ]

/-- C3 as amended: the listing set aggregateDistrict uses consists exactly of
the listings of the requested (city, district, offer_type) whose scraped_at
is no earlier than 30 days before the run time now (with no upper bound and
no dependence on the asOfDate argument), and when that set is empty
aggregateDistrict returns null and the main loop writes no snapshot row. -/
theorem aggregation_window_and_empty_skip :
    (∀ (db : List DbListing) (city district offerType : String) (now : ℤ)
        (l : DbListing),
      l ∈ listingsForWindow db city district offerType now ↔
        l ∈ db ∧ l.city = city ∧ l.district = district ∧ l.offer_type = offerType
          ∧ now - 30 ≤ l.scraped_at)
    ∧ (∀ (sqrtFn : ℚ → ℚ) (db : List DbListing) (city district offerType : String)
        (date now : ℤ) (newL : Option ℕ),
      listingsForWindow db city district offerType now = [] →
        aggregateDistrict sqrtFn db city district offerType date now newL = none)
    ∧ (∀ (sqrtFn : ℚ → ℚ) (store : List StatsRow) (db : List DbListing)
        (city district offerType : String) (date now : ℤ) (newL : Option ℕ),
      listingsForWindow db city district offerType now = [] →
        processDistrict sqrtFn store db city district offerType date now newL = store) := by
  refine ⟨?_, ?_, ?_⟩
  · intro db city district offerType now l
    simp [listingsForWindow, List.mem_filter, and_assoc]
  · intro sqrtFn db city district offerType date now newL h
    rw [aggregateDistrict, h]
    rfl
  · intro sqrtFn store db city district offerType date now newL h
    rw [processDistrict, aggregateDistrict, h]
    rfl

/-- Witness for the amended C3: on an empty table every part of the statement
is discharged at concrete inputs. -/
theorem aggregation_window_and_empty_skip_witness :
    (dbL0 ∈ listingsForWindow [dbL0] "warszawa" "mokotow" "sale" 1000 ↔
      dbL0 ∈ [dbL0] ∧ dbL0.city = "warszawa" ∧ dbL0.district = "mokotow"
        ∧ dbL0.offer_type = "sale" ∧ (1000 : ℤ) - 30 ≤ dbL0.scraped_at)
    ∧ aggregateDistrict (fun q => q) [] "warszawa" "mokotow" "sale" 0 0 none = none
    ∧ processDistrict (fun q => q) [] [] "warszawa" "mokotow" "sale" 0 0 none = [] :=
  ⟨aggregation_window_and_empty_skip.1 [dbL0] "warszawa" "mokotow" "sale" 1000 dbL0,
    aggregation_window_and_empty_skip.2.1 (fun q => q) [] "warszawa" "mokotow" "sale" 0 0 none rfl,
    aggregation_window_and_empty_skip.2.2 (fun q => q) [] [] "warszawa" "mokotow" "sale" 0 0 none rfl⟩

/-- C10: every snapshot aggregateDistrict produces stores integer-rounded
statistics: avg_price, avg_price_m2, median_price_m2, min_price_m2,
max_price_m2, p10_price_m2, p90_price_m2 and stddev_price_m2 are the
JavaScript Math.round (floor of x + 1/2) of the raw mean, percentile and
standard-deviation values, and avg_size_m2 is the raw mean of sizes rounded
to one decimal place; none of the raw values is stored unrounded. -/
theorem snapshot_fields_rounded (sqrtFn : ℚ → ℚ) (db : List DbListing)
    (city district offerType : String) (date now : ℤ) (newL : Option ℕ)
    (s : StatsRow)
    (h : aggregateDistrict sqrtFn db city district offerType date now newL = some s) :
    s.avg_price = ((round (if 0 < ((listingsForWindow db city district offerType now).map (·.price)).length
        then ((listingsForWindow db city district offerType now).map (·.price)).sum
          / (((listingsForWindow db city district offerType now).map (·.price)).length : ℚ)
        else 0) : ℤ) : ℚ)
    ∧ s.avg_price_m2 = ((round ((sortQ ((listingsForWindow db city district offerType now).map (·.price_per_m2))).sum
        / ((sortQ ((listingsForWindow db city district offerType now).map (·.price_per_m2))).length : ℚ)) : ℤ) : ℚ)
    ∧ s.median_price_m2 = ((round (calculatePercentile (sortQ ((listingsForWindow db city district offerType now).map (·.price_per_m2))) 50) : ℤ) : ℚ)
    ∧ s.min_price_m2 = ((round ((sortQ ((listingsForWindow db city district offerType now).map (·.price_per_m2))).getD 0 0) : ℤ) : ℚ)
    ∧ s.max_price_m2 = ((round ((sortQ ((listingsForWindow db city district offerType now).map (·.price_per_m2))).getD
        ((sortQ ((listingsForWindow db city district offerType now).map (·.price_per_m2))).length - 1) 0) : ℤ) : ℚ)
    ∧ s.p10_price_m2 = ((round (calculatePercentile (sortQ ((listingsForWindow db city district offerType now).map (·.price_per_m2))) 10) : ℤ) : ℚ)
    ∧ s.p90_price_m2 = ((round (calculatePercentile (sortQ ((listingsForWindow db city district offerType now).map (·.price_per_m2))) 90) : ℤ) : ℚ)
    ∧ (∃ z : ℤ, s.stddev_price_m2 = (z : ℚ))
    ∧ (∃ z : ℤ, s.avg_size_m2 = (z : ℚ) / 10)
    ∧ s.avg_size_m2 = ((round ((if 0 < ((listingsForWindow db city district offerType now).map (·.size_m2)).length
        then ((listingsForWindow db city district offerType now).map (·.size_m2)).sum
          / (((listingsForWindow db city district offerType now).map (·.size_m2)).length : ℚ)
        else 0) * 10) : ℤ) : ℚ) / 10 := by
  rw [aggregateDistrict] at h
  by_cases h0 : (listingsForWindow db city district offerType now).length = 0
  · rw [if_pos h0] at h
    exact absurd h (by simp)
  · rw [if_neg h0] at h
    rw [computeStats] at h
    by_cases h1 : (sortQ ((listingsForWindow db city district offerType now).map (·.price_per_m2))).length = 0
    · rw [if_pos h1] at h
      exact absurd h (by simp)
    · rw [if_neg h1] at h
      injection h with h
      subst h
      exact ⟨rfl, rfl, rfl, rfl, rfl, rfl, rfl, ⟨_, rfl⟩, ⟨_, rfl⟩, rfl⟩

/-- The snapshot aggregateDistrict computes for the single listing dbL0 with
run time and date 1000. -/
def stats0 : StatsRow :=
  { city := "warszawa", district := "mokotow", offer_type := "sale", date := 1000,
    avg_price := 800000, avg_price_m2 := 16000, median_price_m2 := 16000,
    min_price_m2 := 16000, max_price_m2 := 16000, p10_price_m2 := 16000,
    p90_price_m2 := 16000, stddev_price_m2 := 0, listing_count := 1,
    new_listings := 0, avg_size_m2 := 50, count_1room := 0, count_2room := 1,
    count_3room := 0, count_4plus := 0 }

lemma aggregate_dbL0_eval :
    aggregateDistrict (fun q => q) [dbL0] "warszawa" "mokotow" "sale" 1000 1000 none
      = some stats0 := by
  have hw : listingsForWindow [dbL0] "warszawa" "mokotow" "sale" 1000 = [dbL0] := by decide
  rw [aggregateDistrict, hw]
  norm_num [computeStats, dbL0, stats0, sortQ, insertQ, calculateStdDev,
    roomCounts, roomStep, calculatePercentile_one, round_eq, StatsRow.mk.injEq]

/-- Witness for C10: the rounding statement for avg_price_m2, discharged on
the one-listing table dbL0. -/
theorem snapshot_fields_rounded_witness :
    stats0.avg_price_m2 = ((round ((sortQ ((listingsForWindow [dbL0] "warszawa" "mokotow" "sale" 1000).map (·.price_per_m2))).sum
        / ((sortQ ((listingsForWindow [dbL0] "warszawa" "mokotow" "sale" 1000).map (·.price_per_m2))).length : ℚ)) : ℤ) : ℚ) :=
  (snapshot_fields_rounded (fun q => q) [dbL0] "warszawa" "mokotow" "sale"
    1000 1000 none stats0 aggregate_dbL0_eval).2.1

/-- A district_stats row as the district_price_changes view reads it for one
(city, district, offer_type) group: its date (integer day count), the
avg_price_m2 the aggregation script always writes, and the nullable
avg_price total-price column added by migration 003. -/
structure Snapshot where
  date : ℤ
  avg_price_m2 : ℚ
  avg_price : Option ℚ
deriving DecidableEq

/-- The row DISTINCT ON (city, district, offer_type) ... ORDER BY date DESC
selects within one group: the snapshot with the greatest date.  The
UNIQUE(city, district, date, offer_type) constraint makes dates within a
group pairwise distinct, so the arbitrary tie-break of DISTINCT ON never
matters; this embedding keeps the earlier-listed row on a tie. -/
def latestSnap : List Snapshot → Option Snapshot
  | [] => none
  | s :: rest =>
    match latestSnap rest with
    | none => some s
    | some t => if s.date < t.date then some t else some s

lemma latestSnap_eq_none {l : List Snapshot} : latestSnap l = none ↔ l = [] := by
  cases l with
  | nil => simp [latestSnap]
  | cons a rest =>
    simp only [latestSnap]
    constructor
    · intro h
      split at h
      · exact absurd h (by simp)
      · split at h <;> exact absurd h (by simp)
    · intro h
      exact absurd h (List.cons_ne_nil a rest)

lemma latestSnap_mem {l : List Snapshot} {s : Snapshot}
    (h : latestSnap l = some s) : s ∈ l := by
  induction l with
  | nil => simp [latestSnap] at h
  | cons a rest ih =>
    rw [latestSnap] at h
    split at h
    · injection h with h
      subst h
      exact List.mem_cons_self a rest
    · rename_i t hr
      split at h <;> injection h with h <;> subst h
      · exact List.mem_cons_of_mem a (ih hr)
      · exact List.mem_cons_self a rest

lemma latestSnap_max {l : List Snapshot} : ∀ {s : Snapshot},
    latestSnap l = some s → ∀ t ∈ l, t.date ≤ s.date := by
  induction l with
  | nil => intro s h; simp [latestSnap] at h
  | cons a rest ih =>
    intro s h
    rw [latestSnap] at h
    intro t ht
    split at h
    · rename_i hr
      injection h with h
      subst h
      rcases List.mem_cons.mp ht with h1 | h1
      · exact h1 ▸ le_refl _
      · exact absurd (latestSnap_eq_none.mp hr ▸ h1) (List.not_mem_nil t)
    · rename_i u hr
      split at h
      · rename_i hd
        injection h with h
        subst h
        rcases List.mem_cons.mp ht with h1 | h1
        · exact h1 ▸ le_of_lt hd
        · exact ih hr t h1
      · rename_i hd
        injection h with h
        subst h
        rcases List.mem_cons.mp ht with h1 | h1
        · exact h1 ▸ le_refl _
        · exact le_trans (ih hr t h1) (not_lt.mp hd)

/-- PostgreSQL numeric ROUND to 0 decimal places: half away from zero. -/
def roundHalfAwayFromZero (x : ℚ) : ℤ :=
  if 0 ≤ x then ⌊x + 1 / 2⌋ else ⌈x - 1 / 2⌉

/-- PostgreSQL ROUND(x, 2): round to 2 decimal places, half away from zero,
as the district_price_changes view applies it to the percent change. -/
def round2 (x : ℚ) : ℚ :=
  ((roundHalfAwayFromZero (x * 100) : ℤ) : ℚ) / 100

/-- The numeric output columns of one row of the district_price_changes view
(src/supabase/migrations/003_add_rent_support.sql, lines 86-108); city,
district and offer_type are the group key the embedding is parameterised
over. -/
structure TrendRow where
  current_price : ℚ
  current_total_price : Option ℚ
  previous_price : Option ℚ
  previous_total_price : Option ℚ
  change_percent_30d : Option ℚ
  total_price_change_percent_30d : Option ℚ
deriving DecidableEq

/-- Embeds the district_price_changes view of migration 003 (lines 63-108)
on the snapshots of one (city, district, offer_type) group, with today the
CURRENT_DATE at read time: current is the latest snapshot, previous the
latest snapshot with date at most today minus 30 days (a LEFT JOIN, so
previous columns are null when none qualifies); change_percent_30d is
ROUND((current - previous) / previous * 100, 2) guarded by
previous_price > 0 (a null previous fails the guard, giving NULL), and the
total-price percent is guarded likewise with null propagation from the
nullable avg_price column. -/
def districtPriceChanges (snaps : List Snapshot) (today : ℤ) : Option TrendRow :=
  match latestSnap snaps with
  | none => none
  | some c =>
    let prev := latestSnap (snaps.filter (fun s => decide (s.date ≤ today - 30)))
    some {
      current_price := c.avg_price_m2
      current_total_price := c.avg_price
      previous_price := prev.map (·.avg_price_m2)
      previous_total_price := prev.bind (·.avg_price)
      change_percent_30d :=
        match prev with
        | none => none
        | some p =>
          if 0 < p.avg_price_m2 then
            some (round2 ((c.avg_price_m2 - p.avg_price_m2) / p.avg_price_m2 * 100))
          else none
      total_price_change_percent_30d :=
        match prev with
        | none => none
        | some p =>
          match p.avg_price with
          | none => none
          | some pt =>
            if 0 < pt then
              match c.avg_price with
              | some ct => some (round2 ((ct - pt) / pt * 100))
              | none => none
            else none }

/-- Follows the claim words for C4: previous selected as the most recent
snapshot whose date is at most 30 days before the current snapshot's own
date. -/
def previousAnchoredToCurrent (snaps : List Snapshot) : Option Snapshot :=
  match latestSnap snaps with
  | none => none
  | some c => latestSnap (snaps.filter (fun s => decide (s.date ≤ c.date - 30)))

/-- The pair the claim C2 says the trend computation returns. -/
structure TrendDeltaSpec where
  changePercent : ℚ
  changeAbsolute : ℚ
deriving DecidableEq

/-- Follows the claim words for C2: null when either snapshot is missing or
the previous average is non-positive, otherwise the percent change and the
absolute change, both rounded to 2 decimal places. -/
def trendForSpec (snaps : List Snapshot) (today : ℤ) : Option TrendDeltaSpec :=
  match latestSnap snaps with
  | none => none
  | some c =>
    match latestSnap (snaps.filter (fun s => decide (s.date ≤ today - 30))) with
    | none => none
    | some p =>
      if p.avg_price_m2 ≤ 0 then none
      else some ⟨round2 ((c.avg_price_m2 - p.avg_price_m2) / p.avg_price_m2 * 100),
                 round2 (c.avg_price_m2 - p.avg_price_m2)⟩

/-- Two snapshots 40 days apart for one district group, read on day 100. -/
def snapsC4 : List Snapshot := [⟨0, 10000, none⟩, ⟨40, 12000, none⟩]

/-- The view row for snapsC4 read on day 100: the cutoff 100 - 30 = 70 lies
after both snapshots, so previous is the day-40 snapshot itself. -/
def rowC4 : TrendRow := ⟨12000, none, some 12000, none, some 0, none⟩

lemma latestSnap_snapsC4 : latestSnap snapsC4 = some ⟨40, 12000, none⟩ := by decide

lemma latestSnap_snapsC4_filter :
    latestSnap (snapsC4.filter (fun s => decide (s.date ≤ (100 : ℤ) - 30)))
      = some ⟨40, 12000, none⟩ := by decide

/-- Counterexample to C4: with snapshots on days 0 and 40 read on day 100,
the view takes previous from the cutoff CURRENT_DATE - 30 = day 70 and picks
the day-40 snapshot (price 12000), while the claim's anchoring to the
current snapshot's own date (40 - 30 = day 10) would pick the day-0
snapshot (price 10000). -/
theorem trend_previous_anchor_counterexample :
    (districtPriceChanges snapsC4 100).map (·.previous_price) = some (some 12000)
    ∧ (previousAnchoredToCurrent snapsC4).map (·.avg_price_m2) = some 10000
    ∧ ((12000 : ℚ)) ≠ 10000 := by
  refine ⟨?_, by decide, by norm_num⟩
  rw [districtPriceChanges, latestSnap_snapsC4]
  simp only [latestSnap_snapsC4_filter, Option.map_some]
  simp

/-- C4 as amended: the view's current is the latest snapshot of the group,
and its previous is the most recent snapshot dated at most 30 days before
the day the trend is read (CURRENT_DATE), not before the current snapshot's
own date; when no snapshot is that old the previous columns are null. -/
theorem trend_previous_anchored_to_read_date :
    ∀ (snaps : List Snapshot) (today : ℤ) (row : TrendRow),
      districtPriceChanges snaps today = some row →
      (∃ c, c ∈ snaps ∧ (∀ t ∈ snaps, t.date ≤ c.date)
        ∧ row.current_price = c.avg_price_m2)
      ∧ ((row.previous_price = none ∧ ∀ t ∈ snaps, ¬ t.date ≤ today - 30)
        ∨ (∃ p, p ∈ snaps ∧ p.date ≤ today - 30
            ∧ (∀ t ∈ snaps, t.date ≤ today - 30 → t.date ≤ p.date)
            ∧ row.previous_price = some p.avg_price_m2)) := by
  intro snaps today row h
  rw [districtPriceChanges] at h
  split at h
  · exact absurd h (by simp)
  · rename_i c hc
    injection h with h
    subst h
    refine ⟨⟨c, latestSnap_mem hc, latestSnap_max hc, rfl⟩, ?_⟩
    cases hp : latestSnap (snaps.filter (fun s => decide (s.date ≤ today - 30))) with
    | none =>
      left
      have hnil := latestSnap_eq_none.mp hp
      constructor
      · simp [hp]
      · intro t ht hle
        have : t ∈ snaps.filter (fun s => decide (s.date ≤ today - 30)) :=
          List.mem_filter.mpr ⟨ht, by simpa using hle⟩
        rw [hnil] at this
        exact List.not_mem_nil t this
    | some p =>
      right
      have hpm := latestSnap_mem hp
      obtain ⟨hpmem, hple⟩ := List.mem_filter.mp hpm
      refine ⟨p, hpmem, by simpa using hple, ?_, by simp [hp]⟩
      intro t ht hle
      exact latestSnap_max hp t (List.mem_filter.mpr ⟨ht, by simpa using hle⟩)

/-- Witness for the amended C4: the statement discharged on the concrete
snapshots snapsC4 read on day 100, whose view row is rowC4. -/
theorem trend_previous_anchored_to_read_date_witness :
    (∃ c, c ∈ snapsC4 ∧ (∀ t ∈ snapsC4, t.date ≤ c.date)
      ∧ rowC4.current_price = c.avg_price_m2)
    ∧ ((rowC4.previous_price = none ∧ ∀ t ∈ snapsC4, ¬ t.date ≤ (100 : ℤ) - 30)
      ∨ (∃ p, p ∈ snapsC4 ∧ p.date ≤ (100 : ℤ) - 30
          ∧ (∀ t ∈ snapsC4, t.date ≤ (100 : ℤ) - 30 → t.date ≤ p.date)
          ∧ rowC4.previous_price = some p.avg_price_m2)) :=
  trend_previous_anchored_to_read_date snapsC4 100 rowC4 (by
    rw [districtPriceChanges, latestSnap_snapsC4]
    simp only [latestSnap_snapsC4_filter, rowC4, Option.map_some, Option.some.injEq]
    norm_num [round2, roundHalfAwayFromZero, TrendRow.mk.injEq])

/-- Two snapshots for one district group: day 0 at 15000 and day 31 at
18000, read on day 31, so previous is the day-0 snapshot. -/
def snapsC2 : List Snapshot := [⟨0, 15000, none⟩, ⟨31, 18000, none⟩]

/-- The view row for snapsC2 read on day 31: percent change
(18000 - 15000) / 15000 * 100 = 20.00, and no other numeric output. -/
def rowC2 : TrendRow := ⟨18000, none, some 15000, none, some 20, none⟩

lemma latestSnap_snapsC2 : latestSnap snapsC2 = some ⟨31, 18000, none⟩ := by decide

lemma latestSnap_snapsC2_filter :
    latestSnap (snapsC2.filter (fun s => decide (s.date ≤ (31 : ℤ) - 30)))
      = some ⟨0, 15000, none⟩ := by decide

lemma districtPriceChanges_snapsC2 :
    districtPriceChanges snapsC2 31 = some rowC2 := by
  rw [districtPriceChanges, latestSnap_snapsC2]
  simp only [latestSnap_snapsC2_filter, rowC2, Option.map_some, Option.some.injEq]
  norm_num [round2, roundHalfAwayFromZero, TrendRow.mk.injEq]

/-- Counterexample to C2: on snapshots with previous average 15000 and
current average 18000 the claim says the trend computation returns
changeAbsolute = 3000 (rounded to 2 decimals) alongside the percent; the
view computes exactly the claimed pair under the claim's reading
(trendForSpec), but the row it actually returns carries no absolute change:
none of its numeric outputs equals 3000. -/
theorem trend_absolute_change_counterexample :
    trendForSpec snapsC2 31 = some ⟨20, 3000⟩
    ∧ districtPriceChanges snapsC2 31 = some rowC2
    ∧ rowC2.current_price ≠ 3000
    ∧ rowC2.current_total_price ≠ some 3000
    ∧ rowC2.previous_price ≠ some 3000
    ∧ rowC2.previous_total_price ≠ some 3000
    ∧ rowC2.change_percent_30d ≠ some 3000
    ∧ rowC2.total_price_change_percent_30d ≠ some 3000 := by
  refine ⟨?_, districtPriceChanges_snapsC2, by norm_num [rowC2], by simp [rowC2],
    by norm_num [rowC2], by simp [rowC2], by norm_num [rowC2], by simp [rowC2]⟩
  rw [trendForSpec, latestSnap_snapsC2, latestSnap_snapsC2_filter]
  norm_num [round2, roundHalfAwayFromZero, TrendDeltaSpec.mk.injEq]

/-- C2 as amended: the view yields no row at all when the group has no
snapshot; when it yields a row, change_percent_30d is null (never zero)
whenever the previous snapshot is missing or its average price per area is
non-positive, and otherwise equals (current - previous) / previous * 100
rounded to 2 decimal places; no absolute change is computed, the row only
carries the raw current and previous prices beside the percent. -/
theorem trend_percent_null_not_zero :
    (∀ today : ℤ, districtPriceChanges [] today = none)
    ∧ (∀ (snaps : List Snapshot) (today : ℤ) (row : TrendRow),
        districtPriceChanges snaps today = some row →
          (row.previous_price = none → row.change_percent_30d = none)
          ∧ (∀ p : Snapshot,
              latestSnap (snaps.filter (fun s => decide (s.date ≤ today - 30))) = some p →
                row.previous_price = some p.avg_price_m2
                ∧ (p.avg_price_m2 ≤ 0 → row.change_percent_30d = none)
                ∧ (0 < p.avg_price_m2 → row.change_percent_30d
                    = some (round2 ((row.current_price - p.avg_price_m2)
                        / p.avg_price_m2 * 100))))) := by
  refine ⟨fun today => rfl, ?_⟩
  intro snaps today row h
  rw [districtPriceChanges] at h
  split at h
  · exact absurd h (by simp)
  · rename_i c hc
    injection h with h
    subst h
    constructor
    · intro hnone
      cases hp : latestSnap (snaps.filter (fun s => decide (s.date ≤ today - 30))) with
      | none => simp [hp]
      | some p => simp [hp] at hnone
    · intro p hp
      refine ⟨by simp [hp], fun hle => ?_, fun hpos => ?_⟩
      · simp [hp, not_lt.mpr hle]
      · simp [hp, hpos]

/-- Witness for the amended C2: the statement discharged on the concrete
snapshots snapsC2 read on day 31, whose view row is rowC2. -/
theorem trend_percent_null_not_zero_witness :
    districtPriceChanges [] 31 = none
    ∧ ((rowC2.previous_price = none → rowC2.change_percent_30d = none)
      ∧ (∀ p : Snapshot,
          latestSnap (snapsC2.filter (fun s => decide (s.date ≤ (31 : ℤ) - 30))) = some p →
            rowC2.previous_price = some p.avg_price_m2
            ∧ (p.avg_price_m2 ≤ 0 → rowC2.change_percent_30d = none)
            ∧ (0 < p.avg_price_m2 → rowC2.change_percent_30d
                = some (round2 ((rowC2.current_price - p.avg_price_m2)
                    / p.avg_price_m2 * 100))))) :=
  ⟨trend_percent_null_not_zero.1 31,
    trend_percent_null_not_zero.2 snapsC2 31 rowC2 districtPriceChanges_snapsC2⟩

/-- A row of the listings table as insertListings writes it
(src/unnamed/part_018, lines 20-36), keyed by the UNIQUE external_id column
of the schema (src/unnamed/part_003, line 40).  price_per_m2 is generated
from price and size_m2 and is not a field the caller can set. -/
structure StoredListing where
  external_id : String
  source : String
  city : String
  district : String
  price : ℤ
  size_m2 : ℚ
  rooms : Option ℤ
  offer_type : String
  url : String
  scraped_at : ℤ
deriving DecidableEq

/-- Embeds one row of the upsert in insertListings
(src/unnamed/part_018, lines 38-44): onConflict external_id with
ignoreDuplicates false is PostgreSQL ON CONFLICT (external_id) DO UPDATE,
which replaces the row carrying the same external_id in place and inserts a
fresh row only when the key is new. -/
def upsertRow (store : List StoredListing) (r : StoredListing) : List StoredListing :=
  if store.any (fun s => s.external_id == r.external_id) then
    store.map (fun s => if s.external_id == r.external_id then r else s)
  else store ++ [r]

/-- Embeds the batch upsert of insertListings: each row of the batch is
upserted by external_id. -/
def insertListingsStore (store : List StoredListing)
    (batch : List StoredListing) : List StoredListing :=
  batch.foldl upsertRow store

/-- The invariant the UNIQUE constraint on external_id keeps: no two rows of
the table share an external_id. -/
def NoDupIds (store : List StoredListing) : Prop :=
  (store.map (·.external_id)).Nodup

lemma replace_keeps_id (r s : StoredListing) :
    (if s.external_id == r.external_id then r else s).external_id = s.external_id := by
  by_cases h : s.external_id == r.external_id
  · rw [if_pos h]
    exact (show s.external_id = r.external_id by simpa using h).symm
  · rw [if_neg h]

lemma upsertRow_ids (store : List StoredListing) (r : StoredListing) :
    (upsertRow store r).map (·.external_id) =
      if store.any (fun s => s.external_id == r.external_id) then
        store.map (·.external_id)
      else store.map (·.external_id) ++ [r.external_id] := by
  rw [upsertRow]
  split
  · rw [List.map_map]
    exact List.map_congr_left (fun s _ => replace_keeps_id r s)
  · simp

lemma upsertRow_noDup {store : List StoredListing} (r : StoredListing)
    (h : NoDupIds store) : NoDupIds (upsertRow store r) := by
  rw [NoDupIds, upsertRow_ids]
  split
  · exact h
  · rename_i hno
    rw [List.nodup_append]
    refine ⟨h, List.nodup_singleton _, ?_⟩
    intro x hx hmem
    rw [List.mem_singleton] at hmem
    subst hmem
    obtain ⟨s, hs, hsid⟩ := List.mem_map.mp hx
    apply hno
    rw [List.any_eq_true]
    exact ⟨s, hs, by simp [hsid]⟩

lemma insertListingsStore_noDup {store : List StoredListing}
    (batch : List StoredListing) (h : NoDupIds store) :
    NoDupIds (insertListingsStore store batch) := by
  induction batch generalizing store with
  | nil => exact h
  | cons b rest ih => exact ih (upsertRow_noDup b h)

lemma filter_eq_nil_of_no_id (store : List StoredListing) (id : String)
    (hno : ∀ s ∈ store, s.external_id ≠ id) :
    store.filter (fun s => s.external_id == id) = [] := by
  rw [List.filter_eq_nil_iff]
  intro s hs
  simpa using hno s hs

lemma replace_eq_self_of_no_id (rest : List StoredListing) (r : StoredListing)
    (hno : ∀ s ∈ rest, s.external_id ≠ r.external_id) :
    rest.map (fun s => if s.external_id == r.external_id then r else s) = rest := by
  induction rest with
  | nil => rfl
  | cons a t ih =>
    rw [List.map_cons, if_neg (by simpa using hno a (List.mem_cons_self a t)),
      ih (fun s hs => hno s (List.mem_cons_of_mem a hs))]

lemma upsertRow_filter_self {store : List StoredListing} (r : StoredListing)
    (h : NoDupIds store) :
    (upsertRow store r).filter (fun s => s.external_id == r.external_id) = [r] := by
  induction store with
  | nil => rw [upsertRow]; simp
  | cons a rest ih =>
    rw [NoDupIds, List.map_cons, List.nodup_cons] at h
    obtain ⟨hani, hrest⟩ := h
    rw [upsertRow]
    by_cases ha : a.external_id = r.external_id
    · rw [if_pos (List.any_eq_true.mpr ⟨a, List.mem_cons_self a rest, by simp [ha]⟩)]
      rw [List.map_cons,
        show (if a.external_id == r.external_id then r else a) = r from by simp [ha],
        List.filter_cons, if_pos (by simp)]
      have hnomatch : ∀ s ∈ rest, s.external_id ≠ r.external_id := by
        intro s hs hsr
        exact hani (by
          rw [ha, ← hsr]
          exact List.mem_map_of_mem (fun x => x.external_id) hs)
      rw [replace_eq_self_of_no_id rest r hnomatch,
        filter_eq_nil_of_no_id rest r.external_id hnomatch]
    · by_cases hrany : rest.any (fun s => s.external_id == r.external_id)
      · rw [if_pos (by rw [List.any_cons]; simp [hrany])]
        rw [List.map_cons,
          show (if a.external_id == r.external_id then r else a) = a from by simp [ha],
          List.filter_cons, if_neg (by simpa using ha)]
        have := ih hrest
        rw [upsertRow, if_pos hrany] at this
        exact this
      · have hnone : ¬ ((a :: rest).any (fun s => s.external_id == r.external_id) = true) := by
          rw [List.any_cons]
          simp only [Bool.or_eq_true]
          rintro (h1 | h2)
          · exact ha (by simpa using h1)
          · exact hrany h2
        rw [if_neg hnone, List.cons_append, List.filter_cons, if_neg (by simpa using ha),
          List.filter_append]
        have hnomatch : ∀ s ∈ rest, s.external_id ≠ r.external_id := by
          intro s hs hsr
          exact hrany (List.any_eq_true.mpr ⟨s, hs, by simp [hsr]⟩)
        rw [filter_eq_nil_of_no_id rest r.external_id hnomatch]
        simp

/-- C7: ingesting by upsert never duplicates a key and updates in place: the
external_id column stays duplicate-free under any batch, and after two
ingest calls carrying the same externalId the store holds exactly one row
for that id, the one with the most recently ingested values. -/
theorem ingest_upsert_idempotent :
    (∀ (store : List StoredListing) (batch : List StoredListing),
      NoDupIds store → NoDupIds (insertListingsStore store batch))
    ∧ (∀ (store : List StoredListing) (r1 r2 : StoredListing),
      NoDupIds store → r1.external_id = r2.external_id →
        (insertListingsStore (insertListingsStore store [r1]) [r2]).filter
          (fun s => s.external_id == r2.external_id) = [r2]) := by
  refine ⟨fun store batch h => insertListingsStore_noDup batch h, ?_⟩
  intro store r1 r2 h _
  have h1 : NoDupIds (insertListingsStore store [r1]) := insertListingsStore_noDup [r1] h
  show (upsertRow (insertListingsStore store [r1]) r2).filter
    (fun s => s.external_id == r2.external_id) = [r2]
  exact upsertRow_filter_self r2 h1

/-- Two versions of one listing: the same external id scraped twice, the
second time with a changed price and a later scraped_at. -/
def listingV1 : StoredListing :=
  ⟨"otodom-77", "otodom", "warszawa", "mokotow", 800000, 50, some 2, "sale", "u", 990⟩

/-- The re-scraped version of listingV1 with the updated price. -/
def listingV2 : StoredListing :=
  ⟨"otodom-77", "otodom", "warszawa", "mokotow", 815000, 50, some 2, "sale", "u", 1000⟩

/-- Witness for C7: ingesting listingV1 then listingV2 into an empty store
leaves exactly the one row listingV2. -/
theorem ingest_upsert_idempotent_witness :
    NoDupIds (insertListingsStore [] [listingV1])
    ∧ (insertListingsStore (insertListingsStore [] [listingV1]) [listingV2]).filter
        (fun s => s.external_id == listingV2.external_id) = [listingV2] :=
  ⟨ingest_upsert_idempotent.1 [] [listingV1] (by simp [NoDupIds]),
    ingest_upsert_idempotent.2 [] listingV1 listingV2 (by simp [NoDupIds]) rfl⟩

/-- A latest_district_stats row as the geo route reads it; every numeric
column of the view is nullable in the schema. -/
structure LatestStatRow where
  avg_price : Option ℚ
  avg_price_m2 : Option ℚ
  median_price_m2 : Option ℚ
  min_price_m2 : Option ℚ
  max_price_m2 : Option ℚ
  listing_count : Option ℚ
  avg_size_m2 : Option ℚ
deriving DecidableEq

/-- A district_price_changes row as the geo route reads it. -/
structure ChangeRow where
  change_percent_30d : Option ℚ
deriving DecidableEq

/-- The districtStats entry the geo route serves per district
(src/src/app/api/districts/geo/route.ts, lines 146-204). -/
structure GeoEntry where
  avgPrice : ℚ
  avgPriceM2 : ℚ
  medianPriceM2 : ℚ
  minPriceM2 : Option ℚ
  maxPriceM2 : Option ℚ
  listingCount : ℚ
  change30d : ℚ
  avgSize : ℚ
  rentalYield : Option ℚ
deriving DecidableEq

/-- JavaScript `x || 0` on a nullable number: null, undefined and 0 all
become 0. -/
def jsOrZero (x : Option ℚ) : ℚ :=
  match x with
  | some v => v
  | none => 0

/-- JavaScript `x || undefined` on a nullable number: null and 0 become
undefined (0 is falsy). -/
def jsOrUndefined (x : Option ℚ) : Option ℚ :=
  match x with
  | some v => if v = 0 then none else some v
  | none => none

/-- Embeds the stats-entry construction of the geo route GET handler
(src/src/app/api/districts/geo/route.ts, lines 169-204) for one district:
stat is the latest_district_stats row for the requested offer type (absent
when the district has no snapshot), change the district_price_changes row,
otherStat the latest row of the other offer type used for the rental yield.
When stat is absent no entry is written; otherwise every nullable statistic
is coalesced with `|| 0` and change30d is `change?.change_percent_30d || 0`,
while min and max use `|| undefined`. -/
def buildEntry (offerType : String) (stat : Option LatestStatRow)
    (change : Option ChangeRow) (otherStat : Option LatestStatRow) : Option GeoEntry :=
  match stat with
  | none => none
  | some s =>
    let avgPriceM2 := jsOrZero s.avg_price_m2
    let avgPrice := jsOrZero s.avg_price
    let avgSize := jsOrZero s.avg_size_m2
    let rentalYield :=
      match otherStat with
      | none => none
      | some o =>
        let salePriceM2 := if offerType = "sale" then avgPriceM2 else jsOrZero o.avg_price_m2
        let rentAvgPrice := if offerType = "rent" then avgPrice else jsOrZero o.avg_price
        let rentAvgSize := if offerType = "rent" then avgSize else jsOrZero o.avg_size_m2
        if 0 < salePriceM2 ∧ 0 < rentAvgPrice ∧ 0 < rentAvgSize then
          some (rentAvgPrice / rentAvgSize * 12 / salePriceM2 * 100)
        else none
    some {
      avgPrice := avgPrice
      avgPriceM2 := avgPriceM2
      medianPriceM2 := jsOrZero s.median_price_m2
      minPriceM2 := jsOrUndefined s.min_price_m2
      maxPriceM2 := jsOrUndefined s.max_price_m2
      listingCount := jsOrZero s.listing_count
      change30d := jsOrZero (change.bind (·.change_percent_30d))
      avgSize := avgSize
      rentalYield := rentalYield }

/-- A fully populated latest_district_stats row for one district. -/
def statRowA : LatestStatRow :=
  ⟨some 900000, some 16000, some 15500, some 12000, some 21000, some 35, some 55⟩

/-- Counterexample to C5: a district with a snapshot but no trend row is
served change30d = 0 — the absent trend delta is represented as the number
zero, not as null or an absent field; likewise a present trend row whose
change_percent_30d is null is served as 0. -/
theorem geo_missing_trend_served_as_zero :
    (∃ e : GeoEntry, buildEntry "sale" (some statRowA) none none = some e
      ∧ e.change30d = 0)
    ∧ (∃ e : GeoEntry, buildEntry "sale" (some statRowA) (some ⟨none⟩) none = some e
      ∧ e.change30d = 0) :=
  ⟨⟨_, rfl, rfl⟩, ⟨_, rfl, rfl⟩⟩

/-- C5 as amended: a district with no snapshot row is omitted from
districtStats (explicit absence), and null or zero min and max prices are
served as undefined; but a missing or null trend delta is served as the
number 0 in change30d, and null averages and counts are likewise served
as 0. -/
theorem geo_entry_null_handling :
    ∀ (offerType : String) (stat : Option LatestStatRow)
      (change : Option ChangeRow) (otherStat : Option LatestStatRow),
      (stat = none → buildEntry offerType stat change otherStat = none)
      ∧ (∀ s : LatestStatRow, stat = some s →
          ∃ e : GeoEntry, buildEntry offerType stat change otherStat = some e
            ∧ e.change30d = jsOrZero (change.bind (·.change_percent_30d))
            ∧ e.avgPrice = jsOrZero s.avg_price
            ∧ e.avgPriceM2 = jsOrZero s.avg_price_m2
            ∧ e.medianPriceM2 = jsOrZero s.median_price_m2
            ∧ e.listingCount = jsOrZero s.listing_count
            ∧ e.avgSize = jsOrZero s.avg_size_m2
            ∧ e.minPriceM2 = jsOrUndefined s.min_price_m2
            ∧ e.maxPriceM2 = jsOrUndefined s.max_price_m2) := by
  intro offerType stat change otherStat
  constructor
  · intro h
    rw [h]
    rfl
  · intro s h
    rw [h]
    exact ⟨_, rfl, rfl, rfl, rfl, rfl, rfl, rfl, rfl, rfl⟩

/-- Witness for the amended C5: both branches discharged at concrete rows:
an absent stat row gives no entry, and statRowA with an absent change row
gives an entry whose change30d is jsOrZero none = 0. -/
theorem geo_entry_null_handling_witness :
    buildEntry "sale" none none none = none
    ∧ (∃ e : GeoEntry, buildEntry "sale" (some statRowA) none none = some e
        ∧ e.change30d = jsOrZero (Option.bind (none : Option ChangeRow) (·.change_percent_30d))
        ∧ e.avgPrice = jsOrZero statRowA.avg_price
        ∧ e.avgPriceM2 = jsOrZero statRowA.avg_price_m2
        ∧ e.medianPriceM2 = jsOrZero statRowA.median_price_m2
        ∧ e.listingCount = jsOrZero statRowA.listing_count
        ∧ e.avgSize = jsOrZero statRowA.avg_size_m2
        ∧ e.minPriceM2 = jsOrUndefined statRowA.min_price_m2
        ∧ e.maxPriceM2 = jsOrUndefined statRowA.max_price_m2) :=
  ⟨(geo_entry_null_handling "sale" none none none).1 rfl,
    (geo_entry_null_handling "sale" (some statRowA) none none).2 statRowA rfl⟩

/-- JavaScript whitespace as matched by trim and the \\s class, restricted to
the characters that occur in scraped location strings: space, tab, newline,
carriage return, vertical tab, form feed and the no-break space. -/
def isWs (c : Char) : Bool :=
  c == ' ' || c == '\t' || c == '\n' || c == '\r'
    || c == '\u000B' || c == '\u000C' || c == '\u00A0'

/-- toLowerCase on the Latin letters and the Polish precomposed letters that
occur in district names; every other character is unchanged. -/
def toLowerPL (c : Char) : Char :=
  if 'A' ≤ c ∧ c ≤ 'Z' then Char.ofNat (c.toNat + 32)
  else if c = 'Ą' then 'ą'
  else if c = 'Ć' then 'ć'
  else if c = 'Ę' then 'ę'
  else if c = 'Ł' then 'ł'
  else if c = 'Ń' then 'ń'
  else if c = 'Ó' then 'ó'
  else if c = 'Ś' then 'ś'
  else if c = 'Ź' then 'ź'
  else if c = 'Ż' then 'ż'
  else c

/-- Unicode NFD restricted to the Polish precomposed letters: each decomposes
into its base letter followed by a combining mark in U+0300..U+036F, except
that the stroked ł has no canonical decomposition and stays; characters
outside the table are already in NFD form. -/
def nfdDecompose (c : Char) : List Char :=
  if c = 'ą' then ['a', '\u0328']
  else if c = 'ć' then ['c', '\u0301']
  else if c = 'ę' then ['e', '\u0328']
  else if c = 'ń' then ['n', '\u0301']
  else if c = 'ó' then ['o', '\u0301']
  else if c = 'ś' then ['s', '\u0301']
  else if c = 'ź' then ['z', '\u0301']
  else if c = 'ż' then ['z', '\u0307']
  else [c]

/-- A combining diacritical mark in U+0300..U+036F, the range the
replace regex removes after NFD normalization. -/
def isCombiningMark (c : Char) : Bool :=
  decide (0x300 ≤ c.toNat) && decide (c.toNat ≤ 0x36F)

/-- NFD normalization followed by removal of the combining marks
(src/unnamed/part_018, lines 90-91). -/
def stripDiacritics (l : List Char) : List Char :=
  (l.bind nfdDecompose).filter (fun c => !(isCombiningMark c))

/-- String.prototype.trim: drop leading and trailing whitespace. -/
def trimWs (l : List Char) : List Char :=
  ((l.dropWhile isWs).reverse.dropWhile isWs).reverse

/-- replace(\\s+, dash) one run at a time: prevWs records whether the previous
character belonged to a whitespace run already replaced. -/
def collapseWsAux : Bool → List Char → List Char
  | _, [] => []
  | prevWs, c :: rest =>
    if isWs c then
      if prevWs then collapseWsAux true rest
      else '-' :: collapseWsAux true rest
    else c :: collapseWsAux false rest

/-- Replace every maximal whitespace run by a single dash
(src/unnamed/part_018, line 89). -/
def collapseWs (l : List Char) : List Char :=
  collapseWsAux false l

/-- Embeds the cleaning chain of normalizeDistrict (src/unnamed/part_018,
lines 86-91): toLowerCase, trim, whitespace runs to dashes, NFD normalize
and strip combining marks, in that order. -/
def cleanName (name : List Char) : List Char :=
  stripDiacritics (collapseWs (trimWs (name.map toLowerPL)))

/-- JavaScript Map get on an insertion-ordered association list (the Map
built by getDistrictMappings has unique keys, set overwriting earlier
entries; lookup returns the value of the matching key). -/
def lookupMap (m : List (List Char × List Char)) (k : List Char) : Option (List Char) :=
  (m.find? (fun kv => kv.1 == k)).map (·.2)

/-- Whether sub is a prefix of big, character by character. -/
def isPrefixOfL : List Char → List Char → Bool
  | [], _ => true
  | _ :: _, [] => false
  | a :: as, b :: bs => a == b && isPrefixOfL as bs

/-- JavaScript String.includes: sub occurs contiguously inside big. -/
def containsSub : List Char → List Char → Bool
  | [], sub => sub.isEmpty
  | b :: rest, sub => isPrefixOfL sub (b :: rest) || containsSub rest sub

/-- Embeds normalizeDistrict (src/unnamed/part_018, lines 82-112): empty
input is falsy and yields null; otherwise clean the input, try an exact key
match, then the dash-to-space variant, then scan the map in iteration order
for the first candidate whose key contains the cleaned input or is contained
in it; no match yields null. -/
def normalizeDistrict (name : List Char)
    (mappings : List (List Char × List Char)) : Option (List Char) :=
  if name = [] then none
  else
    let cleaned := cleanName name
    match lookupMap mappings cleaned with
    | some v => some v
    | none =>
      let withSpaces := cleaned.map (fun c => if c == '-' then ' ' else c)
      match lookupMap mappings withSpaces with
      | some v => some v
      | none =>
        (mappings.find? (fun kv =>
          containsSub kv.1 cleaned || containsSub cleaned kv.1)).map (·.2)

/-- A candidate map in the shape getDistrictMappings builds: diacritic-free
keys mapping to the canonical district names. -/
def sampleMappings : List (List Char × List Char) :=
  [("srodmiescie".data, "Śródmieście".data),
   ("stare miasto".data, "Stare Miasto".data)]

/-- C6: the normalizer cleans its input (lowercase, trim, whitespace runs to
dashes, NFD diacritic stripping), returns the canonical name on an exact
match of the cleaned or space-joined key, falls back to the first candidate
in map iteration order related by substring containment, and otherwise
returns null; in particular Śródmieście matches the key srodmiescie,
stare-miasto matches the key stare miasto, and Atlantis matches nothing. -/
theorem normalize_district_stages :
    (∀ (name : List Char) (m : List (List Char × List Char)) (v : List Char),
        name ≠ [] → lookupMap m (cleanName name) = some v →
          normalizeDistrict name m = some v)
    ∧ (∀ (name : List Char) (m : List (List Char × List Char)) (v : List Char),
        name ≠ [] → lookupMap m (cleanName name) = none →
        lookupMap m ((cleanName name).map (fun c => if c == '-' then ' ' else c)) = some v →
          normalizeDistrict name m = some v)
    ∧ (∀ (name : List Char) (m : List (List Char × List Char))
        (kv : List Char × List Char),
        name ≠ [] → lookupMap m (cleanName name) = none →
        lookupMap m ((cleanName name).map (fun c => if c == '-' then ' ' else c)) = none →
        m.find? (fun p => containsSub p.1 (cleanName name)
          || containsSub (cleanName name) p.1) = some kv →
          normalizeDistrict name m = some kv.2)
    ∧ (∀ (name : List Char) (m : List (List Char × List Char)),
        name ≠ [] → lookupMap m (cleanName name) = none →
        lookupMap m ((cleanName name).map (fun c => if c == '-' then ' ' else c)) = none →
        m.find? (fun p => containsSub p.1 (cleanName name)
          || containsSub (cleanName name) p.1) = none →
          normalizeDistrict name m = none)
    ∧ normalizeDistrict "Śródmieście".data sampleMappings = some "Śródmieście".data
    ∧ normalizeDistrict "stare-miasto".data sampleMappings = some "Stare Miasto".data
    ∧ normalizeDistrict "Atlantis".data sampleMappings = none := by
  refine ⟨?_, ?_, ?_, ?_, by decide, by decide, by decide⟩
  · intro name m v hne h1
    simp only [normalizeDistrict]
    rw [if_neg hne, h1]
  · intro name m v hne h1 h2
    simp only [normalizeDistrict]
    rw [if_neg hne]
    simp only [h1, h2]
  · intro name m kv hne h1 h2 h3
    simp only [normalizeDistrict]
    rw [if_neg hne]
    simp only [h1, h2, h3]
    rfl
  · intro name m hne h1 h2 h3
    simp only [normalizeDistrict]
    rw [if_neg hne]
    simp only [h1, h2, h3]
    rfl

/-- Witness for C6: the exact-match stage applied to the concrete input
Śródmieście over sampleMappings. -/
theorem normalize_district_stages_witness :
    normalizeDistrict "Śródmieście".data sampleMappings = some "Śródmieście".data :=
  normalize_district_stages.1 "Śródmieście".data sampleMappings "Śródmieście".data
    (by decide) (by decide)

lemma containsSub_nil_right (big : List Char) : containsSub big [] = true := by
  cases big with
  | nil => rfl
  | cons b rest => simp [containsSub, isPrefixOfL]

/-- A candidate map whose second key is the empty string. -/
def emptyKeyMappings : List (List Char × List Char) :=
  [("a".data, "A".data), ("".data, "B".data)]

/-- Counterexample to C9: on the whitespace-only input, whose cleaned form is
empty, a map that contains an empty-string key as a later candidate returns
that candidate via the exact-match stage, not the first candidate of the
iteration order. -/
theorem normalize_empty_clean_counterexample :
    cleanName " ".data = []
    ∧ " ".data ≠ ([] : List Char)
    ∧ normalizeDistrict " ".data emptyKeyMappings = some "B".data
    ∧ some "B".data ≠ some "A".data := by decide

/-- C9 as amended: when no candidate key is the empty string, a non-empty
input whose cleaned form is empty (whitespace-only input, or combining marks
only) returns the first candidate of the map iteration order, because the
empty string is contained in every key during the fallback scan. -/
theorem normalize_empty_clean_first_candidate :
    ∀ (name : List Char) (kv : List Char × List Char)
      (rest : List (List Char × List Char)),
      name ≠ [] → cleanName name = [] →
      (∀ p ∈ kv :: rest, p.1 ≠ []) →
      normalizeDistrict name (kv :: rest) = some kv.2 := by
  intro name kv rest hne hclean hkeys
  have h1 : lookupMap (kv :: rest) [] = none := by
    have hfind : (kv :: rest).find? (fun p => p.1 == ([] : List Char)) = none := by
      rw [List.find?_eq_none]
      intro x hx
      simpa using hkeys x hx
    rw [lookupMap, hfind]
    rfl
  have hfind : (kv :: rest).find? (fun p =>
      containsSub p.1 [] || containsSub [] p.1) = some kv :=
    List.find?_cons_of_pos _ (by simp [containsSub_nil_right])
  simp only [normalizeDistrict]
  rw [if_neg hne, hclean]
  simp only [h1, List.map_nil, hfind]
  rfl

/-- Witness for the amended C9: the whitespace-only input over a one-candidate
map returns that candidate. -/
theorem normalize_empty_clean_first_candidate_witness :
    normalizeDistrict " ".data [("srodmiescie".data, "Śródmieście".data)]
      = some "Śródmieście".data :=
  normalize_empty_clean_first_candidate " ".data
    ("srodmiescie".data, "Śródmieście".data) [] (by decide) (by decide) (by decide)

end MapaCen